import Mathlib

/-!
Shallow embedding of lld wasm InputChunks (src/wasm/InputChunks.h): the
chunk object model of the wasm linker backend — input data segments and
input functions, their relocation lists, and their output placement.

Machine integers are modelled as Nat (for uint32 values) or Int (for the
int32 field OutputOffset), with reduction modulo 2 ^ 32 made explicit at
exactly the points where the C++ types force a conversion or wraparound.
Fallible operations (assertion-guarded code, spec-described contract
failures) return Except String; plain field reads stay total.
-/

namespace LldWasm

/-- 2 ^ 32, the modulus of uint32 arithmetic. -/
def UINT32_MOD : Nat := 4294967296

/-- 2 ^ 31, the first value that is negative when reinterpreted as int32. -/
def INT32_HALF : Nat := 2147483648

/-- Reinterpret an int32 value (held as an Int) as a uint32 value,
as the C++ implicit conversion int32_t to uint32_t does. -/
def toUInt32 (i : Int) : Nat := (i % (UINT32_MOD : Int)).toNat

/-- Reinterpret a uint32 value (held as a Nat) as an int32 value,
as the C++ implicit conversion uint32_t to int32_t does. -/
def toInt32 (n : Nat) : Int :=
  if n % UINT32_MOD < INT32_HALF then ((n % UINT32_MOD : Nat) : Int)
  else ((n % UINT32_MOD : Nat) : Int) - (UINT32_MOD : Int)

/-- llvm::wasm::WasmRelocation: one relocation record read from the input
object file. Field Type of the C++ struct is renamed RelocType (Type is a
keyword in Lean); Offset is the section-relative file offset. -/
structure WasmRelocation where
  RelocType : Nat
  Index : Nat
  Offset : Nat
  Addend : Int
  deriving DecidableEq

/-- Modelled from the spec: OutputRelocation is declared in WriterUtils.h,
which is not part of this tree. Per the spec it is storage reserved by
copy_relocations and populated only by a later relocation-rewrite stage,
so it is modelled as an opaque default-constructed slot. -/
structure OutputRelocation where
  Value : Nat := 0
  deriving DecidableEq

/-- llvm::object::WasmSection, restricted to the one field copyRelocations
reads: its list of relocation records. -/
structure WasmSection where
  Relocations : List WasmRelocation
  deriving DecidableEq

/-- The Value union of llvm::wasm::WasmInitExpr, read through its Int32
member (an int32_t) by InputSegment::startVA. -/
structure WasmInitExprValue where
  Int32 : Int
  deriving DecidableEq

/-- llvm::wasm::WasmInitExpr, restricted to its Value field. -/
structure WasmInitExpr where
  Value : WasmInitExprValue
  deriving DecidableEq

/-- llvm::wasm::WasmData: the payload of a data segment. -/
structure WasmData where
  Name : String
  Alignment : Nat
  Offset : WasmInitExpr
  Content : List Nat
  deriving DecidableEq

/-- llvm::object::WasmSegment: a parsed data segment together with its
offset within the data section it was read from. -/
structure WasmSegment where
  SectionOffset : Nat
  Data : WasmData
  deriving DecidableEq

/-- llvm::wasm::WasmFunction, restricted to the fields InputFunction
reads: the body size and the offset of the body in the code section. -/
structure WasmFunction where
  Size : Nat
  CodeSectionOffset : Nat
  deriving DecidableEq

/-- llvm::wasm::WasmSignature: a function type. Code chunks hold a shared
reference into a deduplicated signature table; here the referenced value. -/
structure WasmSignature where
  ReturnType : Nat
  ParamTypes : List Nat
  deriving DecidableEq

/-- InputSegment: a wasm data segment chunk. The fields OutputOffset,
Relocations, OutRelocations and File come from the base class InputChunk
(C++ inheritance is flattened); File and the OutputSeg pointer are
modelled as numeric handles, the null pointer as none. Initializers
mirror the C++ member initializers: OutputOffset = 0, empty relocation
vectors, OutputSeg = nullptr. -/
structure InputSegment where
  OutputOffset : Int := 0
  Relocations : List WasmRelocation := []
  OutRelocations : List OutputRelocation := []
  File : Nat
  Segment : WasmSegment
  OutputSeg : Option Nat := none
  deriving DecidableEq

/-- The InputSegment constructor: InputSegment(Seg, F) forwards F to the
InputChunk base and stores the segment reference; every other field keeps
its in-class default. -/
def InputSegment.init (Seg : WasmSegment) (F : Nat) : InputSegment :=
  { File := F, Segment := Seg }

/-- InputFunction: a wasm function chunk, base-class fields flattened as
for InputSegment. OutputIndex models llvm::Optional with none = absent. -/
structure InputFunction where
  OutputOffset : Int := 0
  Relocations : List WasmRelocation := []
  OutRelocations : List OutputRelocation := []
  File : Nat
  Signature : WasmSignature
  Function : WasmFunction
  OutputIndex : Option Nat := none
  deriving DecidableEq

/-- The InputFunction constructor: InputFunction(S, Func, F). -/
def InputFunction.init (S : WasmSignature) (Func : WasmFunction) (F : Nat) :
    InputFunction :=
  { File := F, Signature := S, Function := Func }

/-- InputSegment::getSize: Segment.Data.Content.size(), a size_t value
truncated to the declared uint32_t return type. -/
def InputSegment.getSize (c : InputSegment) : Nat :=
  c.Segment.Data.Content.length % UINT32_MOD

/-- InputSegment::getInputSectionOffset: Segment.SectionOffset. -/
def InputSegment.getInputSectionOffset (c : InputSegment) : Nat :=
  c.Segment.SectionOffset

/-- InputSegment::getAlignment: Segment.Data.Alignment. -/
def InputSegment.getAlignment (c : InputSegment) : Nat :=
  c.Segment.Data.Alignment

/-- InputSegment::startVA: Segment.Data.Offset.Value.Int32, an int32_t
read through the uint32_t return type. -/
def InputSegment.startVA (c : InputSegment) : Nat :=
  toUInt32 c.Segment.Data.Offset.Value.Int32

/-- InputSegment::endVA: startVA() + getSize() in uint32 arithmetic. -/
def InputSegment.endVA (c : InputSegment) : Nat :=
  (c.startVA + c.getSize) % UINT32_MOD

/-- InputSegment::getName: Segment.Data.Name. -/
def InputSegment.getName (c : InputSegment) : String :=
  c.Segment.Data.Name

/-- InputSegment::getOutputSegment: a plain unchecked read of the
OutputSeg pointer field; before placement it returns the null pointer. -/
def InputSegment.getOutputSegment (c : InputSegment) : Option Nat :=
  c.OutputSeg

/-- InputSegment::setOutputSegment(Segment, Offset): stores the output
segment pointer and the offset in one call; the uint32_t Offset argument
lands in the int32_t field OutputOffset. -/
def InputSegment.setOutputSegment (c : InputSegment) (Segment : Nat)
    (Offset : Nat) : InputSegment :=
  { c with OutputSeg := some Segment, OutputOffset := toInt32 Offset }

/-- Modelled from the spec: the body of InputSegment::translateVA lives in
InputChunks.cpp, which is not part of this tree; only the declaration
uint32_t translateVA(uint32_t Address) const is. Per the spec, the
precondition is that placement is set and Address lies in
[source_virtual_address_start, source_virtual_address_end), violating
either being a contract failure, and the result is
(Address - source_virtual_address_start) + placement.byte_offset; the
declared uint32_t return type reduces that result modulo 2 ^ 32. -/
def InputSegment.translateVA (c : InputSegment) (Address : Nat) :
    Except String Nat :=
  match c.OutputSeg with
  | none => Except.error "translateVA: segment has not been placed"
  | some _ =>
    if c.startVA ≤ Address ∧ Address < c.startVA + c.getSize then
      Except.ok ((Address - c.startVA + toUInt32 c.OutputOffset) % UINT32_MOD)
    else Except.error "translateVA: address outside segment range"

/-- InputFunction::getSize: Function.Size. -/
def InputFunction.getSize (f : InputFunction) : Nat :=
  f.Function.Size

/-- InputFunction::getInputSectionOffset: Function.CodeSectionOffset. -/
def InputFunction.getInputSectionOffset (f : InputFunction) : Nat :=
  f.Function.CodeSectionOffset

/-- InputFunction::hasOutputIndex: OutputIndex.hasValue(). -/
def InputFunction.hasOutputIndex (f : InputFunction) : Bool :=
  f.OutputIndex.isSome

/-- InputFunction::getOutputIndex: OutputIndex.getValue(), whose internal
assertion makes reading an absent value a fatal failure. -/
def InputFunction.getOutputIndex (f : InputFunction) : Except String Nat :=
  match f.OutputIndex with
  | none => Except.error "getOutputIndex: OutputIndex has no value"
  | some i => Except.ok i

/-- InputFunction::setOutputIndex(Index): assert(!hasOutputIndex()) then
OutputIndex = Index; the assertion failure is modelled as a fatal error. -/
def InputFunction.setOutputIndex (f : InputFunction) (Index : Nat) :
    Except String InputFunction :=
  if f.hasOutputIndex then Except.error "setOutputIndex: already assigned"
  else Except.ok { f with OutputIndex := some Index }

/-- Modelled from the spec: the body of InputChunk::copyRelocations lives
in InputChunks.cpp, which is not part of this tree; only the declaration
void copyRelocations(const WasmSection &Section) is. Per the spec it
selects every entry of the section whose offset lies in
[section_offset(), section_offset() + size()), rebases each selected
offset to be chunk-local (entry.offset - section_offset()), appends in
source order to Relocations, and reserves matching storage in
OutRelocations. The virtual section_offset()/size() pair is passed in by
each chunk kind below. -/
def copyRelocationsCore (Start Size : Nat)
    (SectionRelocs : List WasmRelocation) (Rels : List WasmRelocation)
    (OutRels : List OutputRelocation) :
    List WasmRelocation × List OutputRelocation :=
  let Sel := SectionRelocs.filter fun R =>
    decide (Start ≤ R.Offset) && decide (R.Offset < Start + Size)
  (Rels ++ Sel.map fun R => { R with Offset := R.Offset - Start },
   OutRels ++ Sel.map fun _ => ({} : OutputRelocation))

/-- InputChunk::copyRelocations dispatched on a data chunk: Start and
Size are the segment overrides of getInputSectionOffset and getSize. -/
def InputSegment.copyRelocations (c : InputSegment) (Section : WasmSection) :
    InputSegment :=
  let p := copyRelocationsCore c.getInputSectionOffset c.getSize
    Section.Relocations c.Relocations c.OutRelocations
  { c with Relocations := p.1, OutRelocations := p.2 }

/-- InputChunk::copyRelocations dispatched on a code chunk: Start and
Size are the function overrides of getInputSectionOffset and getSize. -/
def InputFunction.copyRelocations (f : InputFunction) (Section : WasmSection) :
    InputFunction :=
  let p := copyRelocationsCore f.getInputSectionOffset f.getSize
    Section.Relocations f.Relocations f.OutRelocations
  { f with Relocations := p.1, OutRelocations := p.2 }

/-- The states of a data chunk reachable through this module: freshly
constructed, then mutated only by copyRelocations and setOutputSegment. -/
inductive SegReachable : InputSegment → Prop where
  | init : ∀ (Seg : WasmSegment) (F : Nat), SegReachable (InputSegment.init Seg F)
  | copyRel : ∀ (c : InputSegment) (Section : WasmSection),
      SegReachable c → SegReachable (c.copyRelocations Section)
  | place : ∀ (c : InputSegment) (s o : Nat),
      SegReachable c → SegReachable (c.setOutputSegment s o)

/-! Concrete fixtures used by witnesses and counterexamples. -/

/-- A 16-byte data payload at virtual address 1000 (the spec scenario). -/
def testData1000 : WasmData :=
  { Name := "d16", Alignment := 0,
    Offset := { Value := { Int32 := 1000 } },
    Content := List.replicate 16 0 }

/-- The segment record wrapping testData1000. -/
def testSeg1000 : WasmSegment := { SectionOffset := 0, Data := testData1000 }

/-- A freshly constructed chunk over testSeg1000. -/
def seg1000 : InputSegment := InputSegment.init testSeg1000 0

/-- seg1000 placed in output segment 1 at byte offset 500. -/
def seg1000Placed : InputSegment := seg1000.setOutputSegment 1 500

/-- A 15-byte payload whose section offset is 20 (the relocation-filter
scenario of the spec: chunk range [20, 35)). -/
def testData20 : WasmData :=
  { Name := "d15", Alignment := 0, Offset := { Value := { Int32 := 0 } },
    Content := List.replicate 15 0 }

/-- The segment record wrapping testData20 at section offset 20. -/
def testSeg20 : WasmSegment := { SectionOffset := 20, Data := testData20 }

/-- A freshly constructed chunk over testSeg20. -/
def seg20 : InputSegment := InputSegment.init testSeg20 0

/-- A relocation record at the given section-relative file offset. -/
def mkReloc (off : Nat) : WasmRelocation :=
  { RelocType := 0, Index := 0, Offset := off, Addend := 0 }

/-- A relocation section with entries at file offsets 10, 20, 30, 40. -/
def testRelocSec : WasmSection :=
  { Relocations := [mkReloc 10, mkReloc 20, mkReloc 30, mkReloc 40] }

/-- An 8-byte payload whose int32 start address -4 reads back as the
uint32 value 4294967292, so startVA + size crosses 2 ^ 32. -/
def testDataWrap : WasmData :=
  { Name := "dw", Alignment := 0, Offset := { Value := { Int32 := -4 } },
    Content := List.replicate 8 0 }

/-- A chunk whose virtual-address range wraps around 2 ^ 32. -/
def segWrap : InputSegment :=
  InputSegment.init { SectionOffset := 0, Data := testDataWrap } 0

/-- A 2-byte payload at virtual address 0. -/
def testData2 : WasmData :=
  { Name := "d2", Alignment := 0, Offset := { Value := { Int32 := 0 } },
    Content := [0, 0] }

/-- The 2-byte chunk placed at the maximal uint32 byte offset, so that
address translation wraps around 2 ^ 32. -/
def segWrapPlaced : InputSegment :=
  (InputSegment.init { SectionOffset := 0, Data := testData2 } 0).setOutputSegment
    1 4294967295

/-- A minimal function signature. -/
def testSig : WasmSignature := { ReturnType := 0, ParamTypes := [] }

/-- A minimal function record. -/
def testFunc : WasmFunction := { Size := 4, CodeSectionOffset := 20 }

/-! Helper lemmas. -/

theorem UINT32_MOD_eq_pow : UINT32_MOD = 2 ^ 32 := by norm_num [UINT32_MOD]

theorem toUInt32_toInt32 (n : Nat) (h : n < UINT32_MOD) :
    toUInt32 (toInt32 n) = n := by
  unfold toUInt32 toInt32 UINT32_MOD INT32_HALF at *
  split <;> omega

/-! Claim theorems. -/

/-- C1, counterexample: the 2-byte segment at virtual address 0 placed at
byte offset 4294967295 translates address 1 to 0 (uint32 wraparound), not
to the exact value (1 - 0) + 4294967295 = 4294967296 the claim demands. -/
theorem translateVA_wrap_counterexample :
    segWrapPlaced.translateVA 1 = Except.ok 0
      ∧ (1 - segWrapPlaced.startVA) + 4294967295 ≠ 0 :=
  ⟨rfl, by decide⟩

/-- C1, amended: for a data chunk placed by one setOutputSegment call with
byte offset O < 2 ^ 32, translateVA on any address a with
startVA ≤ a < startVA + size returns ((a - startVA) + O) % 2 ^ 32, which
equals the exact sum (a - startVA) + O whenever that sum is below 2 ^ 32. -/
theorem translateVA_of_placed (c : InputSegment) (s O a : Nat)
    (hO : O < 2 ^ 32) (h1 : c.startVA ≤ a)
    (h2 : a < c.startVA + c.getSize) :
    (c.setOutputSegment s O).translateVA a
        = Except.ok ((a - c.startVA + O) % 2 ^ 32)
      ∧ (a - c.startVA + O < 2 ^ 32 →
          (c.setOutputSegment s O).translateVA a
            = Except.ok (a - c.startVA + O)) := by
  have hM : UINT32_MOD = 2 ^ 32 := UINT32_MOD_eq_pow
  have key : (c.setOutputSegment s O).translateVA a
      = if c.startVA ≤ a ∧ a < c.startVA + c.getSize then
          Except.ok ((a - c.startVA + toUInt32 (toInt32 O)) % UINT32_MOD)
        else Except.error "translateVA: address outside segment range" := rfl
  rw [if_pos ⟨h1, h2⟩] at key
  rw [toUInt32_toInt32 O (by rw [hM]; exact hO), hM] at key
  exact ⟨key, fun hlt => by rw [key, Nat.mod_eq_of_lt hlt]⟩

/-- Witness for C1 at the spec scenario: the 16-byte segment at virtual
address 1000 placed at byte offset 500 translates address 1015 to 515. -/
theorem translateVA_of_placed_witness :
    (seg1000.setOutputSegment 1 500).translateVA 1015 = Except.ok 515 := by
  rw [(translateVA_of_placed seg1000 1 500 1015 (by decide) (by decide)
    (by decide)).2 (by decide)]
  rfl

/-- C2: copyRelocations selects exactly the section entries whose offset
lies in [section_offset, section_offset + size), appends them in source
order, and rebases each to entry.offset - section_offset; both chunk
kinds dispatch to the same selection, and the spec scenario (entries at
10, 20, 30, 40 against range [20, 35)) yields local offsets [0, 10]. -/
theorem copyRelocations_filter_rebase :
    (∀ (c : InputSegment) (Sec : WasmSection),
        (c.copyRelocations Sec).Relocations
          = c.Relocations
            ++ (Sec.Relocations.filter fun R =>
                  decide (c.getInputSectionOffset ≤ R.Offset)
                    && decide (R.Offset
                        < c.getInputSectionOffset + c.getSize)).map
                (fun R => { R with Offset := R.Offset - c.getInputSectionOffset }))
      ∧ (∀ (f : InputFunction) (Sec : WasmSection),
          (f.copyRelocations Sec).Relocations
            = f.Relocations
              ++ (Sec.Relocations.filter fun R =>
                    decide (f.getInputSectionOffset ≤ R.Offset)
                      && decide (R.Offset
                          < f.getInputSectionOffset + f.getSize)).map
                  (fun R => { R with Offset := R.Offset - f.getInputSectionOffset }))
      ∧ (seg20.copyRelocations testRelocSec).Relocations.map
            (fun R => R.Offset) = [0, 10] :=
  ⟨fun _ _ => rfl, fun _ _ => rfl, by decide⟩

/-- C3: a fresh code chunk has no output index; setOutputIndex 5 succeeds,
after which hasOutputIndex is true and getOutputIndex returns 5; a second
setOutputIndex 7 then fails fatally instead of overwriting. -/
theorem setOutputIndex_once (S : WasmSignature) (Func : WasmFunction)
    (F : Nat) :
    (InputFunction.init S Func F).hasOutputIndex = false
      ∧ ∃ f, (InputFunction.init S Func F).setOutputIndex 5 = Except.ok f
          ∧ f.hasOutputIndex = true
          ∧ f.getOutputIndex = Except.ok 5
          ∧ ∃ e, f.setOutputIndex 7 = Except.error e :=
  ⟨rfl, { InputFunction.init S Func F with OutputIndex := some 5 },
    rfl, rfl, rfl, "setOutputIndex: already assigned", rfl⟩

/-- C4: calling translateVA before placement, or with an address outside
[startVA, startVA + size), is a contract failure, not a value-returning
computation. -/
theorem translateVA_contract_failure (c : InputSegment) (a : Nat)
    (h : c.OutputSeg = none ∨ a < c.startVA ∨ c.startVA + c.getSize ≤ a) :
    ∃ e, c.translateVA a = Except.error e := by
  rcases hseg : c.OutputSeg with _ | s
  · exact ⟨"translateVA: segment has not been placed",
      by simp [InputSegment.translateVA, hseg]⟩
  · refine ⟨"translateVA: address outside segment range", ?_⟩
    have hrange : ¬(c.startVA ≤ a ∧ a < c.startVA + c.getSize) := by
      rcases h with h | h | h
      · rw [hseg] at h; cases h
      · omega
      · omega
    simp [InputSegment.translateVA, hseg, hrange]

/-- Witness for C4: the placed 16-byte segment at virtual address 1000
rejects both address 1016 (one past the end) and address 999 (one before
the start). -/
theorem translateVA_contract_failure_witness :
    (∃ e, seg1000Placed.translateVA 1016 = Except.error e)
      ∧ ∃ e, seg1000Placed.translateVA 999 = Except.error e :=
  ⟨translateVA_contract_failure seg1000Placed 1016 (by decide),
   translateVA_contract_failure seg1000Placed 999 (by decide)⟩

/-- C5, counterexample: OutputOffset holds 0 at construction, and a chunk
legitimately placed at byte offset 0 holds the same value 0, so the
default is not a state distinct from every legitimate placement value. -/
theorem outputOffset_default_zero_counterexample :
    seg20.OutputOffset = 0
      ∧ (seg20.setOutputSegment 1 0).OutputOffset = 0 :=
  ⟨rfl, by decide⟩

/-- C5, amended: OutputOffset is defaulted to the number 0, not to a
distinct unset sentinel, and placing at byte offset 0 leaves it equal to
that default; the observable pre-layout unplaced state lives elsewhere —
in the null OutputSeg pointer of a data chunk and the absent OutputIndex
of a code chunk. -/
theorem unplaced_state_representation (Seg : WasmSegment) (F : Nat)
    (S : WasmSignature) (Func : WasmFunction) (G s : Nat) :
    (InputSegment.init Seg F).OutputOffset = 0
      ∧ (InputFunction.init S Func G).OutputOffset = 0
      ∧ (InputSegment.init Seg F).OutputSeg = none
      ∧ (InputFunction.init S Func G).OutputIndex = none
      ∧ ((InputSegment.init Seg F).setOutputSegment s 0).OutputOffset
          = (InputSegment.init Seg F).OutputOffset := by
  refine ⟨rfl, rfl, rfl, rfl, ?_⟩
  show toInt32 0 = 0
  decide

/-- C6, counterexample: querying the output segment of an unplaced data
chunk does not abort — getOutputSegment is an unchecked field read that
returns the stored null-pointer default. -/
theorem getOutputSegment_unplaced_counterexample :
    seg20.getOutputSegment = seg20.OutputSeg
      ∧ seg20.getOutputSegment = none :=
  ⟨rfl, rfl⟩

/-- C6, amended: reading the output index of a code chunk before
assignment fails fatally (the assertion inside the optional accessor),
but querying the output segment of an unplaced data chunk does not fail:
it returns the null pointer stored in OutputSeg. -/
theorem query_before_set_behavior (Seg : WasmSegment) (F : Nat)
    (S : WasmSignature) (Func : WasmFunction) (G : Nat) :
    (∃ e, (InputFunction.init S Func G).getOutputIndex = Except.error e)
      ∧ (InputSegment.init Seg F).getOutputSegment
          = (InputSegment.init Seg F).OutputSeg
      ∧ (InputSegment.init Seg F).OutputSeg = none :=
  ⟨⟨"getOutputIndex: OutputIndex has no value", rfl⟩, rfl, rfl⟩

/-- C7, counterexample: with in-range entries present, a second
copyRelocations call with the same section appends the selection again,
so the chunk relocation state after the second call differs from the
state after the first. -/
theorem copyRelocations_twice_counterexample :
    ((seg20.copyRelocations testRelocSec).copyRelocations
        testRelocSec).Relocations
      ≠ (seg20.copyRelocations testRelocSec).Relocations := by
  decide

/-- C7, amended: a second copyRelocations call with the same section
selects the identical set of entries as the first and appends that
selection (and matching out-relocation storage) once more; the state is
unchanged only when the selection is empty. -/
theorem copyRelocations_second_call_appends :
    (∀ (Start Size : Nat) (SectionRelocs Rels : List WasmRelocation)
        (OutRels : List OutputRelocation),
        copyRelocationsCore Start Size SectionRelocs
            (copyRelocationsCore Start Size SectionRelocs Rels OutRels).1
            (copyRelocationsCore Start Size SectionRelocs Rels OutRels).2
          = ((copyRelocationsCore Start Size SectionRelocs Rels OutRels).1
                ++ (copyRelocationsCore Start Size SectionRelocs [] []).1,
             (copyRelocationsCore Start Size SectionRelocs Rels OutRels).2
                ++ (copyRelocationsCore Start Size SectionRelocs [] []).2))
      ∧ (∀ (c : InputSegment) (Sec : WasmSection),
          ((c.copyRelocations Sec).copyRelocations Sec).Relocations
            = (c.copyRelocations Sec).Relocations
                ++ (copyRelocationsCore c.getInputSectionOffset c.getSize
                      Sec.Relocations [] []).1)
      ∧ (∀ (f : InputFunction) (Sec : WasmSection),
          ((f.copyRelocations Sec).copyRelocations Sec).Relocations
            = (f.copyRelocations Sec).Relocations
                ++ (copyRelocationsCore f.getInputSectionOffset f.getSize
                      Sec.Relocations [] []).1) := by
  refine ⟨fun Start Size SectionRelocs Rels OutRels => ?_,
    fun c Sec => ?_, fun f Sec => ?_⟩
  · simp [copyRelocationsCore]
  · simp [InputSegment.copyRelocations, copyRelocationsCore,
      InputSegment.getInputSectionOffset, InputSegment.getSize]
  · simp [InputFunction.copyRelocations, copyRelocationsCore,
      InputFunction.getInputSectionOffset, InputFunction.getSize]

/-- C8: copyRelocations appends matching numbers of entries to
Relocations and OutRelocations, so equal lengths before the call (as at
construction) give equal lengths after; the appended entries are a
rebased copy of a sublist of the section list, so source order is
preserved. Both chunk kinds are covered. -/
theorem relocations_parallel_length_order :
    (∀ (c : InputSegment) (Sec : WasmSection),
        c.Relocations.length = c.OutRelocations.length →
        (c.copyRelocations Sec).Relocations.length
            = (c.copyRelocations Sec).OutRelocations.length
          ∧ ∃ Sel : List WasmRelocation, List.Sublist Sel Sec.Relocations
              ∧ (c.copyRelocations Sec).Relocations
                  = c.Relocations ++ Sel.map
                      (fun R => { R with
                        Offset := R.Offset - c.getInputSectionOffset }))
      ∧ (∀ (f : InputFunction) (Sec : WasmSection),
          f.Relocations.length = f.OutRelocations.length →
          (f.copyRelocations Sec).Relocations.length
              = (f.copyRelocations Sec).OutRelocations.length
            ∧ ∃ Sel : List WasmRelocation, List.Sublist Sel Sec.Relocations
                ∧ (f.copyRelocations Sec).Relocations
                    = f.Relocations ++ Sel.map
                        (fun R => { R with
                          Offset := R.Offset - f.getInputSectionOffset })) := by
  constructor
  · intro c Sec h
    refine ⟨?_, ?_⟩
    · simp [InputSegment.copyRelocations, copyRelocationsCore, h]
    · exact ⟨_, List.filter_sublist Sec.Relocations, rfl⟩
  · intro f Sec h
    refine ⟨?_, ?_⟩
    · simp [InputFunction.copyRelocations, copyRelocationsCore, h]
    · exact ⟨_, List.filter_sublist Sec.Relocations, rfl⟩

/-- Witness for C8: the relocation-filter scenario chunk starts with two
equal empty lists, and after copyRelocations both lists have length 2. -/
theorem relocations_parallel_length_order_witness :
    (seg20.copyRelocations testRelocSec).Relocations.length
      = (seg20.copyRelocations testRelocSec).OutRelocations.length :=
  (relocations_parallel_length_order.1 seg20 testRelocSec rfl).1

/-- C9: placement of a data chunk is atomic: setOutputSegment assigns the
output-segment reference and the byte offset in the same call, and in
every state reachable through the operations of this module an absent
output segment goes together with the untouched default offset — no
reachable state holds only one of the two placement components. -/
theorem placement_atomicity (c : InputSegment) (h : SegReachable c) :
    (c.OutputSeg = none → c.OutputOffset = 0)
      ∧ ∀ (s o : Nat),
          (c.setOutputSegment s o).OutputSeg = some s
            ∧ (c.setOutputSegment s o).OutputOffset = toInt32 o := by
  refine ⟨?_, fun s o => ⟨rfl, rfl⟩⟩
  induction h with
  | init Seg F => intro _; rfl
  | copyRel c Sec hc ih => intro hn; exact ih hn
  | place c s o hc ih =>
    intro hn
    simp [InputSegment.setOutputSegment] at hn

/-- Witness for C9: placing the filter-scenario chunk in output segment 3
at byte offset 7 sets both placement components in the one call. -/
theorem placement_atomicity_witness :
    (seg20.setOutputSegment 3 7).OutputSeg = some 3
      ∧ (seg20.setOutputSegment 3 7).OutputOffset = toInt32 7 :=
  (placement_atomicity seg20 (SegReachable.init testSeg20 0)).2 3 7

/-- C10: virtual-address arithmetic on data chunks is uint32 modular:
endVA is (startVA + size) mod 2 ^ 32; the concrete chunk segWrap has
startVA + size ≥ 2 ^ 32 and its endVA wraps to 4, numerically below its
startVA; and every value translateVA returns is reduced mod 2 ^ 32. -/
theorem uint32_wraparound :
    (∀ c : InputSegment, c.endVA = (c.startVA + c.getSize) % 2 ^ 32)
      ∧ (segWrap.startVA = 4294967292 ∧ segWrap.endVA = 4
          ∧ segWrap.endVA < segWrap.startVA)
      ∧ ∀ (c : InputSegment) (a v : Nat),
          c.translateVA a = Except.ok v →
          v = (a - c.startVA + toUInt32 c.OutputOffset) % 2 ^ 32 := by
  refine ⟨fun c => by rw [InputSegment.endVA, UINT32_MOD_eq_pow],
    ⟨by decide, by decide, by decide⟩, ?_⟩
  intro c a v hok
  unfold InputSegment.translateVA at hok
  split at hok
  · cases hok
  · split at hok
    · injection hok with hv
      rw [← hv, UINT32_MOD_eq_pow]
    · cases hok

/-- Witness for C10: the placed spec-scenario chunk translates address
1000 to 500, and 500 is the mod-2 ^ 32 value of the translation formula. -/
theorem uint32_wraparound_witness :
    seg1000Placed.translateVA 1000 = Except.ok 500
      ∧ 500 = (1000 - seg1000Placed.startVA
          + toUInt32 seg1000Placed.OutputOffset) % 2 ^ 32 :=
  ⟨rfl, uint32_wraparound.2.2 seg1000Placed 1000 500 rfl⟩

end LldWasm
